import Mathlib

set_option maxHeartbeats 1000000

namespace PuppeteerRenderer

/-! Shallow embedding of `packages/puppeteer-renderer/src/lib/renderer.ts`.

The browser engine (puppeteer) is an external collaborator: each engine call
made by the renderer is modelled by an oracle (`EngineBehavior`) that says
whether that particular call succeeds or throws.  `RenderState` tracks how
many pages have been opened and closed, which pages are currently open, and
the sequence of engine operations actually performed (the trace).  Stateful
methods of the `Renderer` class become explicit state-passing functions of
type `RenderState → Except RenderError α × RenderState`. -/

/-- Basic-auth credentials, from `PageOptions.credentials` (validate-schema). -/
structure Credentials where
  username : String
  password : String
  deriving Repr, DecidableEq

/-- The request-scoped page options destructured in `Renderer.createPage`:
`const { credentials, emulateMediaType, headers, ...options } = pageOptions`.
The remaining navigation options are passed through to `page.goto` opaquely. -/
structure PageOptions where
  headers : Option String
  emulateMediaType : Option String
  credentials : Option Credentials
  deriving Repr, DecidableEq

/-- Viewport options passed to `page.setViewport`. -/
structure PageViewportOptions where
  width : Nat
  height : Nat
  deriving Repr, DecidableEq

/-- Screenshot options destructured in `Renderer.screenshot`:
`const { animationTimeout, ...options } = screenshotOptions`. -/
structure ScreenshotOptions where
  type : String
  quality : Option Nat
  animationTimeout : Int
  deriving Repr, DecidableEq

/-- The engine operations the renderer invokes on a page / the browser. -/
inductive EngineOp
  | newPage
  | setHeaders
  | emulateMedia
  | authenticate
  | setCache
  | goto
  | content
  | pdf
  | setViewport
  | screenshot
  | close
  deriving Repr, DecidableEq

/-- Errors a render call can end with.  `badOptions` is the spec's
`BadOptionsError`: the error raised by `JSON.parse(headers)` on a malformed
header string.  `engine op` is a failure thrown by the engine call `op`. -/
inductive RenderError
  | badOptions
  | engine (op : EngineOp)
  deriving Repr, DecidableEq

/-- Observable events: one per engine call the renderer performs, in order. -/
inductive Event
  | opened (id : Nat)
  | setHeaders (h : String)
  | emulateMedia (mt : String)
  | authenticate
  | cacheDisabled
  | goto (url : String)
  | content
  | pdfCapture
  | setViewport (vp : PageViewportOptions)
  | settleAnimations (timeout : Int)
  | screenshotCapture (quality : Option Nat)
  | closed (id : Nat)
  | closeFailed (id : Nat)
  deriving Repr, DecidableEq

/-- The engine-side state visible to the renderer, plus the trace. -/
structure RenderState where
  pagesOpened : Nat
  pagesClosed : Nat
  openPages : List Nat
  trace : List Event
  deriving Repr, DecidableEq

def initState : RenderState := ⟨0, 0, [], []⟩

/-- Oracle: the outcome of each engine call made during one render call, and
the result of `JSON.parse` on a header string (`parseOk h = true` means the
string parses). -/
structure EngineBehavior where
  newPageOk : Bool
  setHeadersOk : Bool
  emulateOk : Bool
  authOk : Bool
  setCacheOk : Bool
  gotoOk : Bool
  contentOk : Bool
  pdfOk : Bool
  setViewportOk : Bool
  screenshotOk : Bool
  closeOk : Bool
  parseOk : String → Bool

/-- Stateful computations of the renderer. -/
abbrev M (α : Type) := RenderState → Except RenderError α × RenderState

/-- Engine call `this.browser.newPage()`: on success a fresh page id is opened. -/
def newPage (env : EngineBehavior) : M Nat := fun s =>
  if env.newPageOk then
    (Except.ok s.pagesOpened,
     { s with pagesOpened := s.pagesOpened + 1,
              openPages := s.openPages ++ [s.pagesOpened],
              trace := s.trace ++ [Event.opened s.pagesOpened] })
  else (Except.error (RenderError.engine EngineOp.newPage), s)

/-- Engine call `page.close()`: succeeds (removing the page) or throws. -/
def pageCloseOp (env : EngineBehavior) (id : Nat) : M Unit := fun s =>
  if env.closeOk then
    (Except.ok (),
     { s with pagesClosed := s.pagesClosed + 1,
              openPages := s.openPages.erase id,
              trace := s.trace ++ [Event.closed id] })
  else (Except.error (RenderError.engine EngineOp.close),
        { s with trace := s.trace ++ [Event.closeFailed id] })

/-- Method `Renderer.closePage(page?)`: if the page exists and is not already
closed, close it; any error thrown while closing is caught and ignored. -/
def closePage (env : EngineBehavior) (page : Option Nat) : M Unit := fun s =>
  match page with
  | none => (Except.ok (), s)
  | some id =>
      if id ∈ s.openPages then
        match pageCloseOp env id s with
        | (Except.ok _, s1) => (Except.ok (), s1)
        | (Except.error _, s1) => (Except.ok (), s1)
      else (Except.ok (), s)

/-- One engine call in the straight-line part of a render call: either an
engine operation (which succeeds emitting its event, or throws), the
`JSON.parse` failure, or a pure internal event (animation settling). -/
inductive Step
  | engine (ok : Bool) (op : EngineOp) (ev : Event)
  | badOpts
  | emitEv (ev : Event)
  deriving Repr

def runStep (st : Step) : M Unit := fun s =>
  match st with
  | Step.engine ok op ev =>
      if ok then (Except.ok (), { s with trace := s.trace ++ [ev] })
      else (Except.error (RenderError.engine op), s)
  | Step.badOpts => (Except.error RenderError.badOptions, s)
  | Step.emitEv ev => (Except.ok (), { s with trace := s.trace ++ [ev] })

def runSteps : List Step → M Unit
  | [] => fun s => (Except.ok (), s)
  | st :: rest => fun s =>
      match runStep st s with
      | (Except.ok _, s1) => runSteps rest s1
      | (Except.error e, s1) => (Except.error e, s1)

/-- Step `if (headers) { await page.setExtraHTTPHeaders(JSON.parse(headers)); }`.
A JS string is falsy exactly when it is empty.  `JSON.parse` runs first; if
it throws the setExtraHTTPHeaders call never happens. -/
def headerSteps (env : EngineBehavior) (po : PageOptions) : List Step :=
  match po.headers with
  | none => []
  | some h =>
      if h = "" then []
      else if env.parseOk h then
        [Step.engine env.setHeadersOk EngineOp.setHeaders (Event.setHeaders h)]
      else [Step.badOpts]

/-- Step `if (emulateMediaType) { await page.emulateMediaType(emulateMediaType); }`. -/
def mediaSteps (env : EngineBehavior) (po : PageOptions) : List Step :=
  match po.emulateMediaType with
  | none => []
  | some mt =>
      if mt = "" then []
      else [Step.engine env.emulateOk EngineOp.emulateMedia (Event.emulateMedia mt)]

/-- Step `if (credentials) { await page.authenticate(credentials); }`. -/
def authSteps (env : EngineBehavior) (po : PageOptions) : List Step :=
  match po.credentials with
  | none => []
  | some _ => [Step.engine env.authOk EngineOp.authenticate Event.authenticate]

/-- The configuration sequence of `Renderer.createPage` after `newPage`:
headers, media emulation, auth, `setCacheEnabled(false)`, `goto(url)`. -/
def configSteps (env : EngineBehavior) (url : String) (po : PageOptions) : List Step :=
  headerSteps env po ++ mediaSteps env po ++ authSteps env po
    ++ [Step.engine env.setCacheOk EngineOp.setCache Event.cacheDisabled,
        Step.engine env.gotoOk EngineOp.goto (Event.goto url)]

/-- Method `Renderer.createPage(url, pageOptions)`: open a page, configure and
navigate it; on any error, close the page (if one was opened) and rethrow.
The `page.on` error listener concerns asynchronous page-level errors outside
this sequential model. -/
def createPage (env : EngineBehavior) (url : String) (po : PageOptions) : M Nat := fun s =>
  match newPage env s with
  | (Except.error e, s1) => (Except.error e, s1)
  | (Except.ok id, s1) =>
      match runSteps (configSteps env url po) s1 with
      | (Except.ok _, s2) => (Except.ok id, s2)
      | (Except.error e, s2) => (Except.error e, (closePage env (some id) s2).2)

/-- The `try { page = createPage(...); ...body } finally { closePage(page) }`
pattern shared by `html`, `pdf` and `screenshot`.  If `createPage` throws,
the local `page` variable was never assigned, so the `finally` block calls
`closePage(undefined)`. -/
def withPage {α : Type} (env : EngineBehavior) (url : String) (po : PageOptions)
    (body : Nat → M α) : M α := fun s =>
  match createPage env url po s with
  | (Except.error e, s1) => (Except.error e, (closePage env none s1).2)
  | (Except.ok id, s1) =>
      let out := body id s1
      (out.1, (closePage env (some id) out.2).2)

/-- Which of the three public render operations is being made, with the
operation-specific options. -/
inductive RenderOp
  | htmlOp
  | pdfOp
  | screenshotOp (vp : PageViewportOptions) (so : ScreenshotOptions)
  deriving Repr

/-- JS `x || 'print'` on an optional string: the empty string is falsy. -/
def jsOrPrint : Option String → String
  | none => "print"
  | some s => if s = "" then "print" else s

/-- The page options actually passed to `createPage`: `pdf` spreads
`{ ...pageOptions, emulateMediaType: pageOptions.emulateMediaType || 'print' }`;
`html` and `screenshot` pass them unchanged. -/
def effectiveOptions (op : RenderOp) (po : PageOptions) : PageOptions :=
  match op with
  | RenderOp.pdfOp => { po with emulateMediaType := some (jsOrPrint po.emulateMediaType) }
  | _ => po

/-- The quality argument of `page.screenshot`:
`quality: options.type === 'png' ? undefined : options.quality`. -/
def qualArg (so : ScreenshotOptions) : Option Nat :=
  if so.type = "png" then none else so.quality

/-- The body each operation runs on the configured page.  For `html` it is
`page.content()`; for `pdf` it is `page.pdf(pdfOptions)`; for `screenshot` it
is `setViewport`, then (if `animationTimeout > 0`) `waitForAnimations`, then
`page.screenshot`.  `waitForAnimations` is modelled from the spec: the
Animation Settler (its source, wait-for-animations.ts, is not among the
sources) never throws — a timeout is best effort, so it is a pure event. -/
def bodySteps (env : EngineBehavior) (op : RenderOp) : List Step :=
  match op with
  | RenderOp.htmlOp => [Step.engine env.contentOk EngineOp.content Event.content]
  | RenderOp.pdfOp => [Step.engine env.pdfOk EngineOp.pdf Event.pdfCapture]
  | RenderOp.screenshotOp vp so =>
      [Step.engine env.setViewportOk EngineOp.setViewport (Event.setViewport vp)]
        ++ (if 0 < so.animationTimeout
            then [Step.emitEv (Event.settleAnimations so.animationTimeout)] else [])
        ++ [Step.engine env.screenshotOk EngineOp.screenshot
              (Event.screenshotCapture (qualArg so))]

/-- One complete call to `Renderer.html` / `Renderer.pdf` /
`Renderer.screenshot`, starting from a fresh engine state. -/
def renderRun (env : EngineBehavior) (op : RenderOp) (url : String) (po : PageOptions) :
    Except RenderError Unit × RenderState :=
  withPage env url (effectiveOptions op po) (fun _ => runSteps (bodySteps env op)) initState

/-- Method `Renderer.createPage` of the second variant (renderer.ts lines
232-255): same opening/configuration sequence, but with no catch block — an
error thrown after `newPage` propagates without the page being closed. -/
def createPageV2 (env : EngineBehavior) (url : String) (po : PageOptions) : M Nat := fun s =>
  match newPage env s with
  | (Except.error e, s1) => (Except.error e, s1)
  | (Except.ok id, s1) =>
      match runSteps (configSteps env url po) s1 with
      | (Except.ok _, s2) => (Except.ok id, s2)
      | (Except.error e, s2) => (Except.error e, s2)

/-- Method `Renderer.withPage` of the second variant: `try { page =
createPage(...); return await fn(page) } finally { closePage(page) }`.  When
`createPage` throws, the local `page` was never assigned, so the `finally`
block calls `closePage(undefined)` — which closes nothing. -/
def withPageV2 {α : Type} (env : EngineBehavior) (url : String) (po : PageOptions)
    (body : Nat → M α) : M α := fun s =>
  match createPageV2 env url po s with
  | (Except.error e, s1) => (Except.error e, (closePage env none s1).2)
  | (Except.ok id, s1) =>
      let out := body id s1
      (out.1, (closePage env (some id) out.2).2)

/-- One complete render call of the second variant. -/
def renderRunV2 (env : EngineBehavior) (op : RenderOp) (url : String) (po : PageOptions) :
    Except RenderError Unit × RenderState :=
  withPageV2 env url (effectiveOptions op po) (fun _ => runSteps (bodySteps env op)) initState

/-! ### The bootstrap (`create`) and shutdown (`close`) paths -/

/-- The launch options bundle (`PuppeteerLaunchOptions`); only `args`
matters to the renderer, which mutates it. -/
structure LaunchOptions where
  args : Option (List String)
  deriving Repr, DecidableEq

/-- The five fixed isolation flags `create` pushes onto `options.args`. -/
def isolationFlags : List String :=
  ["--no-sandbox", "--disable-web-security", "--disable-dev-shm-usage",
   "--disk-cache-size=0", "--aggressive-cache-discard"]

/-- The mutation `create` performs on the caller's options object:
`if (!options.args) options.args = [];` followed by five pushes. -/
def createOptions (opts : LaunchOptions) : LaunchOptions :=
  { opts with args := some (opts.args.getD [] ++ isolationFlags) }

/-- The args the engine is actually launched with:
`puppeteer.launch({ ...options, headless: 'new' })` after the mutation. -/
def launchArgs (opts : LaunchOptions) : List String :=
  (createOptions opts).args.getD []

/-- The transient-data-directory extraction from the launched process's
spawn args: the first argument starting with `--user-data-dir=`, with that
first occurrence removed by `replace`. -/
def extractTmpDir (spawnargs : List String) : Option String :=
  (spawnargs.find? (fun a => a.startsWith "--user-data-dir=")).map
    (fun a => a.drop "--user-data-dir=".length)

/-- The `Renderer` instance state relevant to shutdown. -/
structure RendererHandle where
  browserOpen : Bool
  chromeTmpDataDir : Option String
  deriving Repr, DecidableEq

/-- The `Renderer` instance as built by `create`. -/
def createRenderer (spawnargs : List String) : RendererHandle :=
  { browserOpen := true, chromeTmpDataDir := extractTmpDir spawnargs }

/-- The filesystem collaborator: the set of existing directories. -/
structure Fs where
  dirs : List String
  deriving Repr, DecidableEq

/-- Filesystem call `fs.removeSync(dir)`. -/
def removeSync (fs : Fs) (d : String) : Fs :=
  ⟨fs.dirs.filter (fun x => x ≠ d)⟩

/-- Method `Renderer.close()`: `await this.browser.close()`, then
`if (this.chromeTmpDataDir) fs.removeSync(this.chromeTmpDataDir)`. -/
def rendererClose (r : RendererHandle) (fs : Fs) : RendererHandle × Fs :=
  let r1 := { r with browserOpen := false }
  match r.chromeTmpDataDir with
  | some d => (r1, removeSync fs d)
  | none => (r1, fs)

/-! ### Basic lemmas about steps and page closing -/

/-- Whether a step succeeds under its oracle bit. -/
def stepOk : Step → Bool
  | Step.engine ok _ _ => ok
  | Step.badOpts => false
  | Step.emitEv _ => true

/-- The events a list of steps emits when every step succeeds. -/
def eventsOf (l : List Step) : List Event :=
  l.filterMap (fun st => match st with
    | Step.engine _ _ ev => some ev
    | Step.badOpts => none
    | Step.emitEv ev => some ev)

/-- The error a failing step raises. -/
def stepErrs (st : Step) (e : RenderError) : Prop :=
  match st with
  | Step.engine ok op _ => ok = false ∧ e = RenderError.engine op
  | Step.badOpts => e = RenderError.badOptions
  | Step.emitEv _ => False

theorem runStep_pages (st : Step) (s : RenderState) :
    (runStep st s).2.pagesOpened = s.pagesOpened ∧
    (runStep st s).2.pagesClosed = s.pagesClosed ∧
    (runStep st s).2.openPages = s.openPages := by
  cases st with
  | engine ok op ev => cases ok <;> simp [runStep]
  | badOpts => simp [runStep]
  | emitEv ev => simp [runStep]

theorem runSteps_pages : ∀ (l : List Step) (s : RenderState),
    (runSteps l s).2.pagesOpened = s.pagesOpened ∧
    (runSteps l s).2.pagesClosed = s.pagesClosed ∧
    (runSteps l s).2.openPages = s.openPages
  | [], s => by simp [runSteps]
  | st :: rest, s => by
      have hp := runStep_pages st s
      rcases hstep : runStep st s with ⟨r, s1⟩
      rw [hstep] at hp
      cases r with
      | ok a =>
          have h2 := runSteps_pages rest s1
          simp only [runSteps, hstep]
          exact ⟨h2.1.trans hp.1, h2.2.1.trans hp.2.1, h2.2.2.trans hp.2.2⟩
      | error e =>
          simp only [runSteps, hstep]
          exact hp

theorem runSteps_ok : ∀ (l : List Step), (∀ st ∈ l, stepOk st = true) →
    ∀ (s : RenderState),
    runSteps l s = (Except.ok (), { s with trace := s.trace ++ eventsOf l })
  | [], _, s => by simp [runSteps, eventsOf]
  | st :: rest, h, s => by
      have hst : stepOk st = true := h st (List.mem_cons_self st rest)
      have hrest : ∀ st2 ∈ rest, stepOk st2 = true :=
        fun st2 hm => h st2 (List.mem_cons_of_mem st hm)
      cases st with
      | engine ok op ev =>
          have hok : ok = true := hst
          subst hok
          simp [runSteps, runStep, runSteps_ok rest hrest, eventsOf,
            List.filterMap_cons]
      | badOpts => simp [stepOk] at hst
      | emitEv ev =>
          simp [runSteps, runStep, runSteps_ok rest hrest, eventsOf,
            List.filterMap_cons]

theorem runSteps_error : ∀ (l : List Step) (s : RenderState) (e : RenderError),
    (runSteps l s).1 = Except.error e → ∃ st ∈ l, stepErrs st e
  | [], s, e => by simp [runSteps]
  | st :: rest, s, e => by
      intro h
      rcases hstep : runStep st s with ⟨r, s1⟩
      cases r with
      | ok a =>
          rw [show runSteps (st :: rest) s = runSteps rest s1 by
            simp only [runSteps, hstep]] at h
          obtain ⟨st2, hm, he⟩ := runSteps_error rest s1 e h
          exact ⟨st2, List.mem_cons_of_mem st hm, he⟩
      | error e1 =>
          rw [show runSteps (st :: rest) s = (Except.error e1, s1) by
            simp only [runSteps, hstep]] at h
          have he : e1 = e := by
            simpa using h
          subst he
          refine ⟨st, List.mem_cons_self st rest, ?_⟩
          cases st with
          | engine ok op ev =>
              cases ok with
              | false =>
                  simp [runStep] at hstep
                  exact ⟨rfl, hstep.1.symm⟩
              | true => simp [runStep] at hstep
          | badOpts =>
              simp [runStep] at hstep
              exact hstep.1.symm
          | emitEv ev => simp [runStep] at hstep

theorem closePage_none (env : EngineBehavior) (s : RenderState) :
    closePage env none s = (Except.ok (), s) := rfl

theorem closePage_some_mem (env : EngineBehavior) (id : Nat) (s : RenderState)
    (hm : id ∈ s.openPages) (hc : env.closeOk = true) :
    closePage env (some id) s =
      (Except.ok (), { s with pagesClosed := s.pagesClosed + 1,
                              openPages := s.openPages.erase id,
                              trace := s.trace ++ [Event.closed id] }) := by
  simp [closePage, hm, pageCloseOp, hc]

theorem closePage_some_mem_fail (env : EngineBehavior) (id : Nat) (s : RenderState)
    (hm : id ∈ s.openPages) (hc : env.closeOk = false) :
    closePage env (some id) s =
      (Except.ok (), { s with trace := s.trace ++ [Event.closeFailed id] }) := by
  simp [closePage, hm, pageCloseOp, hc]

theorem closePage_result (env : EngineBehavior) (p : Option Nat) (s : RenderState) :
    (closePage env p s).1 = Except.ok () := by
  cases p with
  | none => rfl
  | some id =>
      by_cases hm : id ∈ s.openPages
      · by_cases hc : env.closeOk = true
        · simp [closePage, hm, pageCloseOp, hc]
        · simp [closePage, hm, pageCloseOp, hc]
      · simp [closePage, hm]

/-- From a fresh state, `createPage` either returns page 0 open (and nothing
closed), or fails with the engine back to a balanced, no-open-pages state. -/
theorem createPage_init (env : EngineBehavior) (url : String) (po : PageOptions)
    (hc : env.closeOk = true) :
    (∃ s1, createPage env url po initState = (Except.ok 0, s1) ∧
      s1.pagesOpened = 1 ∧ s1.pagesClosed = 0 ∧ s1.openPages = [0]) ∨
    (∃ e s1, createPage env url po initState = (Except.error e, s1) ∧
      s1.pagesOpened = s1.pagesClosed ∧ s1.openPages = []) := by
  by_cases hn : env.newPageOk = true
  · have hnew : newPage env initState
        = (Except.ok 0, ⟨1, 0, [0], [Event.opened 0]⟩) := by
      simp [newPage, hn, initState]
    rcases hrun : runSteps (configSteps env url po)
        (⟨1, 0, [0], [Event.opened 0]⟩ : RenderState) with ⟨r2, s2⟩
    have hpages := runSteps_pages (configSteps env url po)
        ⟨1, 0, [0], [Event.opened 0]⟩
    rw [hrun] at hpages
    cases r2 with
    | ok u =>
        left
        exact ⟨s2, by simp [createPage, hnew, hrun],
          hpages.1, hpages.2.1, hpages.2.2⟩
    | error e =>
        right
        have hp1 : s2.pagesOpened = 1 := hpages.1
        have hp2 : s2.pagesClosed = 0 := hpages.2.1
        have hp3 : s2.openPages = [0] := hpages.2.2
        have hmem : (0 : Nat) ∈ s2.openPages := by rw [hp3]; simp
        have hclose := closePage_some_mem env 0 s2 hmem hc
        refine ⟨e, (closePage env (some 0) s2).2, by simp [createPage, hnew, hrun], ?_, ?_⟩
        · rw [hclose]
          simp [hp1, hp2]
        · rw [hclose]
          simp [hp3]
  · right
    refine ⟨RenderError.engine EngineOp.newPage, initState, ?_, rfl, rfl⟩
    simp [createPage, newPage, hn]

/-! ### The trace of a fully successful render call -/

/-- All engine calls made during the render call succeed, and any header
string the caller may supply parses. -/
def allOk (env : EngineBehavior) : Prop :=
  env.newPageOk = true ∧ env.setHeadersOk = true ∧ env.emulateOk = true ∧
  env.authOk = true ∧ env.setCacheOk = true ∧ env.gotoOk = true ∧
  env.contentOk = true ∧ env.pdfOk = true ∧ env.setViewportOk = true ∧
  env.screenshotOk = true ∧ env.closeOk = true ∧ ∀ h, env.parseOk h = true

/-- Events of a successful header-configuration step. -/
def headerEvents (po : PageOptions) : List Event :=
  match po.headers with
  | none => []
  | some h => if h = "" then [] else [Event.setHeaders h]

/-- Events of a successful media-emulation step. -/
def mediaEvents (po : PageOptions) : List Event :=
  match po.emulateMediaType with
  | none => []
  | some mt => if mt = "" then [] else [Event.emulateMedia mt]

/-- Events of a successful authentication step. -/
def authEvents (po : PageOptions) : List Event :=
  match po.credentials with
  | none => []
  | some _ => [Event.authenticate]

/-- Events of the whole successful configuration phase of `createPage`. -/
def cfgEvents (url : String) (po : PageOptions) : List Event :=
  headerEvents po ++ mediaEvents po ++ authEvents po
    ++ [Event.cacheDisabled, Event.goto url]

/-- Events of the successful extraction phase of each operation. -/
def bodyEventsList (op : RenderOp) : List Event :=
  match op with
  | RenderOp.htmlOp => [Event.content]
  | RenderOp.pdfOp => [Event.pdfCapture]
  | RenderOp.screenshotOp vp so =>
      [Event.setViewport vp]
        ++ (if 0 < so.animationTimeout
            then [Event.settleAnimations so.animationTimeout] else [])
        ++ [Event.screenshotCapture (qualArg so)]

theorem eventsOf_append (a b : List Step) :
    eventsOf (a ++ b) = eventsOf a ++ eventsOf b := by
  simp [eventsOf]

theorem headerSteps_allOk (env : EngineBehavior) (po : PageOptions)
    (hsh : env.setHeadersOk = true) (hpa : ∀ h2, env.parseOk h2 = true) :
    (∀ st ∈ headerSteps env po, stepOk st = true) ∧
    eventsOf (headerSteps env po) = headerEvents po := by
  cases hh : po.headers with
  | none => simp [headerSteps, headerEvents, hh, eventsOf]
  | some h2 =>
      by_cases he : h2 = ""
      · simp [headerSteps, headerEvents, hh, he, eventsOf]
      · simp [headerSteps, headerEvents, hh, he, hpa h2, eventsOf, stepOk, hsh]

theorem mediaSteps_allOk (env : EngineBehavior) (po : PageOptions)
    (hem : env.emulateOk = true) :
    (∀ st ∈ mediaSteps env po, stepOk st = true) ∧
    eventsOf (mediaSteps env po) = mediaEvents po := by
  cases hh : po.emulateMediaType with
  | none => simp [mediaSteps, mediaEvents, hh, eventsOf]
  | some mt =>
      by_cases he : mt = ""
      · simp [mediaSteps, mediaEvents, hh, he, eventsOf]
      · simp [mediaSteps, mediaEvents, hh, he, eventsOf, stepOk, hem]

theorem authSteps_allOk (env : EngineBehavior) (po : PageOptions)
    (hau : env.authOk = true) :
    (∀ st ∈ authSteps env po, stepOk st = true) ∧
    eventsOf (authSteps env po) = authEvents po := by
  cases hh : po.credentials with
  | none => simp [authSteps, authEvents, hh, eventsOf]
  | some c => simp [authSteps, authEvents, hh, eventsOf, stepOk, hau]

theorem configSteps_allOk (env : EngineBehavior) (url : String) (po : PageOptions)
    (h : allOk env) :
    (∀ st ∈ configSteps env url po, stepOk st = true) ∧
    eventsOf (configSteps env url po) = cfgEvents url po := by
  obtain ⟨hn, hsh, hem, hau, hsc, hgo, hco, hpd, hvp, hss, hcl, hpa⟩ := h
  have h1 := headerSteps_allOk env po hsh hpa
  have h2 := mediaSteps_allOk env po hem
  have h3 := authSteps_allOk env po hau
  constructor
  · intro st hm
    rw [configSteps] at hm
    simp only [List.mem_append] at hm
    rcases hm with (((hm | hm) | hm) | hm)
    · exact h1.1 st hm
    · exact h2.1 st hm
    · exact h3.1 st hm
    · simp only [List.mem_cons, List.mem_singleton] at hm
      rcases hm with hm | hm | hm
      · rw [hm]; exact hsc
      · rw [hm]; exact hgo
      · simp at hm
  · rw [configSteps, eventsOf_append, eventsOf_append, eventsOf_append,
      h1.2, h2.2, h3.2, cfgEvents]
    simp [eventsOf]

theorem bodySteps_allOk (env : EngineBehavior) (op : RenderOp) (h : allOk env) :
    (∀ st ∈ bodySteps env op, stepOk st = true) ∧
    eventsOf (bodySteps env op) = bodyEventsList op := by
  obtain ⟨hn, hsh, hem, hau, hsc, hgo, hco, hpd, hvp, hss, hcl, hpa⟩ := h
  cases op with
  | htmlOp => simp [bodySteps, bodyEventsList, eventsOf, stepOk, hco]
  | pdfOp => simp [bodySteps, bodyEventsList, eventsOf, stepOk, hpd]
  | screenshotOp vp so =>
      by_cases ht : 0 < so.animationTimeout
      · constructor
        · intro st hm
          simp [bodySteps, ht, List.mem_append, List.mem_cons] at hm
          rcases hm with rfl | rfl | rfl <;> simp [stepOk, hvp, hss]
        · simp [bodySteps, bodyEventsList, ht, eventsOf]
      · constructor
        · intro st hm
          simp [bodySteps, ht, List.mem_append, List.mem_cons] at hm
          rcases hm with rfl | rfl <;> simp [stepOk, hvp, hss]
        · simp [bodySteps, bodyEventsList, ht, eventsOf]

/-- The full trace equation for a completely successful render call: one page
is opened, configured, navigated, used for extraction, and closed. -/
theorem renderRun_allOk (env : EngineBehavior) (op : RenderOp) (url : String)
    (po : PageOptions) (h : allOk env) :
    renderRun env op url po =
      (Except.ok (),
        { pagesOpened := 1, pagesClosed := 1, openPages := [],
          trace := Event.opened 0 ::
            (cfgEvents url (effectiveOptions op po) ++
              (bodyEventsList op ++ [Event.closed 0])) }) := by
  have hn : env.newPageOk = true := h.1
  have hcl : env.closeOk = true := h.2.2.2.2.2.2.2.2.2.2.1
  have hnew : newPage env initState
      = (Except.ok 0, ⟨1, 0, [0], [Event.opened 0]⟩) := by
    simp [newPage, hn, initState]
  have hcfgok := configSteps_allOk env url (effectiveOptions op po) h
  have hcfg := runSteps_ok (configSteps env url (effectiveOptions op po)) hcfgok.1
      (⟨1, 0, [0], [Event.opened 0]⟩ : RenderState)
  rw [hcfgok.2] at hcfg
  have hbodyok := bodySteps_allOk env op h
  have hbody := runSteps_ok (bodySteps env op) hbodyok.1
      (⟨1, 0, [0], Event.opened 0 :: cfgEvents url (effectiveOptions op po)⟩ : RenderState)
  rw [hbodyok.2] at hbody
  have hclose := closePage_some_mem env 0
      (⟨1, 0, [0], Event.opened 0 ::
        (cfgEvents url (effectiveOptions op po) ++ bodyEventsList op)⟩ : RenderState)
      (by simp) hcl
  simp only [renderRun, withPage, createPage, hnew]
  simp only [show ({ (⟨1, 0, [0], [Event.opened 0]⟩ : RenderState) with
      trace := [Event.opened 0] ++ cfgEvents url (effectiveOptions op po) } : RenderState)
      = ⟨1, 0, [0], Event.opened 0 :: cfgEvents url (effectiveOptions op po)⟩ from by simp] at hcfg
  simp only [hcfg]
  simp only [show ({ (⟨1, 0, [0],
      Event.opened 0 :: cfgEvents url (effectiveOptions op po)⟩ : RenderState) with
      trace := (Event.opened 0 :: cfgEvents url (effectiveOptions op po))
        ++ bodyEventsList op } : RenderState)
      = ⟨1, 0, [0], Event.opened 0 ::
          (cfgEvents url (effectiveOptions op po) ++ bodyEventsList op)⟩ from by simp] at hbody
  simp only [hbody]
  simp only [hclose]
  simp [List.append_assoc]

/-! ### Ordering of events within one render call -/

/-- The phase an event belongs to: page opening, configuration steps in their
fixed order, extraction, closing. -/
def rank : Event → Nat
  | Event.opened _ => 0
  | Event.setHeaders _ => 1
  | Event.emulateMedia _ => 2
  | Event.authenticate => 3
  | Event.cacheDisabled => 4
  | Event.goto _ => 5
  | Event.setViewport _ => 6
  | Event.settleAnimations _ => 7
  | Event.content => 8
  | Event.pdfCapture => 8
  | Event.screenshotCapture _ => 8
  | Event.closed _ => 9
  | Event.closeFailed _ => 9

/-- The five configuration steps of `createPage`. -/
def isConfigEvent : Event → Bool
  | Event.setHeaders _ => true
  | Event.emulateMedia _ => true
  | Event.authenticate => true
  | Event.cacheDisabled => true
  | Event.goto _ => true
  | _ => false

/-- The output-extraction engine calls (content / PDF / screenshot). -/
def isExtractionEvent : Event → Bool
  | Event.content => true
  | Event.pdfCapture => true
  | Event.screenshotCapture _ => true
  | _ => false

/-- Event `a` occurs (at some position) strictly before `b` in the trace. -/
def before (tr : List Event) (a b : Event) : Prop :=
  ∃ i j, i < j ∧ tr.get? i = some a ∧ tr.get? j = some b

theorem rank_le_nine (e : Event) : rank e ≤ 9 := by
  cases e <;> simp [rank]

theorem before_of_sorted (tr : List Event)
    (hs : tr.Pairwise (fun a b => rank a ≤ rank b))
    (a b : Event) (ha : a ∈ tr) (hb : b ∈ tr) (hr : rank a < rank b) :
    before tr a b := by
  obtain ⟨i, hi⟩ := List.mem_iff_get.mp ha
  obtain ⟨j, hj⟩ := List.mem_iff_get.mp hb
  have hkey := List.pairwise_iff_get.mp hs
  have hij : (i : Nat) < (j : Nat) := by
    rcases Nat.lt_trichotomy (i : Nat) (j : Nat) with h1 | h1 | h1
    · exact h1
    · exfalso
      have hij2 : i = j := Fin.ext h1
      subst hij2
      have hab : a = b := hi.symm.trans hj
      rw [hab] at hr
      omega
    · exfalso
      have hle := hkey j i h1
      rw [hi, hj] at hle
      omega
  refine ⟨i, j, hij, ?_, ?_⟩
  · rw [List.get?_eq_get i.isLt]
    exact congrArg some hi
  · rw [List.get?_eq_get j.isLt]
    exact congrArg some hj

theorem rank_headerEvents {po : PageOptions} {e : Event}
    (h : e ∈ headerEvents po) : rank e = 1 := by
  cases hh : po.headers with
  | none => rw [headerEvents, hh] at h; simp at h
  | some h2 =>
      rw [headerEvents, hh] at h
      by_cases he : h2 = "" <;> simp [he] at h
      rw [h, rank]

theorem rank_mediaEvents {po : PageOptions} {e : Event}
    (h : e ∈ mediaEvents po) : rank e = 2 := by
  cases hh : po.emulateMediaType with
  | none => rw [mediaEvents, hh] at h; simp at h
  | some mt =>
      rw [mediaEvents, hh] at h
      by_cases he : mt = "" <;> simp [he] at h
      rw [h, rank]

theorem rank_authEvents {po : PageOptions} {e : Event}
    (h : e ∈ authEvents po) : rank e = 3 := by
  cases hh : po.credentials with
  | none => rw [authEvents, hh] at h; simp at h
  | some c =>
      rw [authEvents, hh] at h
      simp at h
      rw [h, rank]

theorem rank_cfgEvents {url : String} {po : PageOptions} {e : Event}
    (h : e ∈ cfgEvents url po) : 1 ≤ rank e ∧ rank e ≤ 5 := by
  rw [cfgEvents] at h
  simp only [List.mem_append] at h
  rcases h with (((h | h) | h) | h)
  · rw [rank_headerEvents h]; omega
  · rw [rank_mediaEvents h]; omega
  · rw [rank_authEvents h]; omega
  · simp only [List.mem_cons, List.mem_singleton] at h
    rcases h with rfl | rfl | h
    · simp [rank]
    · simp [rank]
    · simp at h

theorem rank_bodyEvents {op : RenderOp} {e : Event}
    (h : e ∈ bodyEventsList op) : 6 ≤ rank e ∧ rank e ≤ 8 := by
  cases op with
  | htmlOp => rw [bodyEventsList] at h; simp at h; rw [h, rank]; omega
  | pdfOp => rw [bodyEventsList] at h; simp at h; rw [h, rank]; omega
  | screenshotOp vp so =>
      rw [bodyEventsList] at h
      by_cases ht : 0 < so.animationTimeout
      · simp [ht] at h
        rcases h with rfl | rfl | rfl <;> simp [rank]
      · simp [ht] at h
        rcases h with rfl | rfl <;> simp [rank]

theorem pairwise_rank_append {l1 l2 : List Event}
    (h1 : l1.Pairwise fun a b => rank a ≤ rank b)
    (h2 : l2.Pairwise fun a b => rank a ≤ rank b)
    (hcross : ∀ a ∈ l1, ∀ b ∈ l2, rank a ≤ rank b) :
    (l1 ++ l2).Pairwise fun a b => rank a ≤ rank b :=
  List.pairwise_append.mpr ⟨h1, h2, hcross⟩

theorem headerEvents_pairwise (po : PageOptions) :
    (headerEvents po).Pairwise fun a b => rank a ≤ rank b := by
  cases hh : po.headers with
  | none => simp [headerEvents, hh]
  | some h => by_cases he : h = "" <;> simp [headerEvents, hh, he]

theorem mediaEvents_pairwise (po : PageOptions) :
    (mediaEvents po).Pairwise fun a b => rank a ≤ rank b := by
  cases hh : po.emulateMediaType with
  | none => simp [mediaEvents, hh]
  | some mt => by_cases he : mt = "" <;> simp [mediaEvents, hh, he]

theorem authEvents_pairwise (po : PageOptions) :
    (authEvents po).Pairwise fun a b => rank a ≤ rank b := by
  cases hh : po.credentials with
  | none => simp [authEvents, hh]
  | some c => simp [authEvents, hh]

theorem cfgEvents_sorted (url : String) (po : PageOptions) :
    (cfgEvents url po).Pairwise fun a b => rank a ≤ rank b := by
  rw [cfgEvents]
  refine pairwise_rank_append (pairwise_rank_append (pairwise_rank_append
    (headerEvents_pairwise po) (mediaEvents_pairwise po) ?_)
    (authEvents_pairwise po) ?_) ?_ ?_
  · intro a ha b hb
    rw [rank_headerEvents ha, rank_mediaEvents hb]; omega
  · intro a ha b hb
    rcases List.mem_append.mp ha with ha1 | ha1
    · rw [rank_headerEvents ha1, rank_authEvents hb]; omega
    · rw [rank_mediaEvents ha1, rank_authEvents hb]; omega
  · simp [rank]
  · intro a ha b hb
    have ha3 : rank a ≤ 3 := by
      rcases List.mem_append.mp ha with ha1 | ha1
      · rcases List.mem_append.mp ha1 with ha2 | ha2
        · rw [rank_headerEvents ha2]; omega
        · rw [rank_mediaEvents ha2]; omega
      · rw [rank_authEvents ha1]
    simp only [List.mem_cons, List.mem_singleton, List.not_mem_nil, or_false] at hb
    rcases hb with rfl | rfl
    · have h4 : rank Event.cacheDisabled = 4 := rfl
      omega
    · have h5 : rank (Event.goto url) = 5 := rfl
      omega

theorem bodyEvents_sorted (op : RenderOp) :
    (bodyEventsList op).Pairwise fun a b => rank a ≤ rank b := by
  cases op with
  | htmlOp => simp [bodyEventsList]
  | pdfOp => simp [bodyEventsList]
  | screenshotOp vp so =>
      by_cases ht : 0 < so.animationTimeout <;>
        simp [bodyEventsList, ht, List.pairwise_append, rank]

/-- The trace of a fully successful render call is ordered by phase. -/
theorem renderRun_allOk_sorted (env : EngineBehavior) (op : RenderOp)
    (url : String) (po : PageOptions) (h : allOk env) :
    ((renderRun env op url po).2.trace).Pairwise
      (fun a b => rank a ≤ rank b) := by
  rw [renderRun_allOk env op url po h]
  refine List.pairwise_cons.mpr ⟨?_, ?_⟩
  · intro b hb
    simp [rank]
  · refine pairwise_rank_append (cfgEvents_sorted url _) ?_ ?_
    · refine pairwise_rank_append (bodyEvents_sorted op) (by simp) ?_
      intro a ha b hb
      simp only [List.mem_singleton] at hb
      subst hb
      calc rank a ≤ 9 := rank_le_nine a
        _ = rank (Event.closed 0) := by rw [rank]
    · intro a ha b hb
      have ha5 : rank a ≤ 5 := (rank_cfgEvents ha).2
      rcases List.mem_append.mp hb with hb1 | hb1
      · have := (rank_bodyEvents hb1).1
        omega
      · simp only [List.mem_singleton] at hb1
        subst hb1
        have h9 : rank (Event.closed 0) = 9 := rfl
        omega

/-! ### Error provenance: what a failed render call can fail with -/

theorem newPage_error (env : EngineBehavior) (s : RenderState) (e : RenderError)
    (s1 : RenderState) (h : newPage env s = (Except.error e, s1)) :
    e = RenderError.engine EngineOp.newPage := by
  by_cases hn : env.newPageOk = true
  · simp [newPage, hn] at h
  · simp [newPage, hn] at h
    exact h.1.symm

theorem mem_headerSteps (env : EngineBehavior) (po : PageOptions) (st : Step)
    (hm : st ∈ headerSteps env po) :
    (∃ h2, st = Step.engine env.setHeadersOk EngineOp.setHeaders (Event.setHeaders h2)) ∨
    st = Step.badOpts := by
  cases hh : po.headers with
  | none => rw [headerSteps, hh] at hm; simp at hm
  | some h2 =>
      rw [headerSteps, hh] at hm
      by_cases he : h2 = ""
      · simp [he] at hm
      · by_cases hp : env.parseOk h2 = true
        · simp [he, hp] at hm
          exact Or.inl ⟨h2, hm⟩
        · simp [he, hp] at hm
          exact Or.inr hm

theorem mem_mediaSteps (env : EngineBehavior) (po : PageOptions) (st : Step)
    (hm : st ∈ mediaSteps env po) :
    ∃ mt, st = Step.engine env.emulateOk EngineOp.emulateMedia (Event.emulateMedia mt) := by
  cases hh : po.emulateMediaType with
  | none => rw [mediaSteps, hh] at hm; simp at hm
  | some mt =>
      rw [mediaSteps, hh] at hm
      by_cases he : mt = ""
      · simp [he] at hm
      · simp [he] at hm
        exact ⟨mt, hm⟩

theorem mem_authSteps (env : EngineBehavior) (po : PageOptions) (st : Step)
    (hm : st ∈ authSteps env po) :
    st = Step.engine env.authOk EngineOp.authenticate Event.authenticate := by
  cases hh : po.credentials with
  | none => rw [authSteps, hh] at hm; simp at hm
  | some c => rw [authSteps, hh] at hm; simpa using hm

/-- Configuration failures are header parse errors or engine errors of the
configuration calls; never a page-close error. -/
theorem configSteps_err_not_close (env : EngineBehavior) (url : String)
    (po : PageOptions) (st : Step) (e : RenderError)
    (hm : st ∈ configSteps env url po) (he : stepErrs st e) :
    e ≠ RenderError.engine EngineOp.close := by
  rw [configSteps] at hm
  simp only [List.mem_append] at hm
  rcases hm with (((hm | hm) | hm) | hm)
  · rcases mem_headerSteps env po st hm with ⟨h2, rfl⟩ | rfl
    · obtain ⟨_, rfl⟩ := he
      simp
    · obtain rfl := he
      simp
  · obtain ⟨mt, rfl⟩ := mem_mediaSteps env po st hm
    obtain ⟨_, rfl⟩ := he
    simp
  · obtain rfl := mem_authSteps env po st hm
    obtain ⟨_, rfl⟩ := he
    simp
  · simp only [List.mem_cons, List.mem_singleton] at hm
    rcases hm with rfl | rfl | hm
    · obtain ⟨_, rfl⟩ := he
      simp
    · obtain ⟨_, rfl⟩ := he
      simp
    · simp at hm

/-- Extraction failures are engine errors of the extraction calls; never a
page-close error. -/
theorem bodySteps_err_not_close (env : EngineBehavior) (op : RenderOp)
    (st : Step) (e : RenderError)
    (hm : st ∈ bodySteps env op) (he : stepErrs st e) :
    e ≠ RenderError.engine EngineOp.close := by
  cases op with
  | htmlOp =>
      rw [bodySteps] at hm
      simp only [List.mem_singleton] at hm
      subst hm
      obtain ⟨_, rfl⟩ := he
      simp
  | pdfOp =>
      rw [bodySteps] at hm
      simp only [List.mem_singleton] at hm
      subst hm
      obtain ⟨_, rfl⟩ := he
      simp
  | screenshotOp vp so =>
      rw [bodySteps] at hm
      by_cases ht : 0 < so.animationTimeout
      · simp [ht] at hm
        rcases hm with rfl | rfl | rfl
        · obtain ⟨_, rfl⟩ := he
          simp
        · exact absurd he (by simp [stepErrs])
        · obtain ⟨_, rfl⟩ := he
          simp
      · simp [ht] at hm
        rcases hm with rfl | rfl
        · obtain ⟨_, rfl⟩ := he
          simp
        · obtain ⟨_, rfl⟩ := he
          simp

/-- The outcome of a render call does not depend on whether page closing
succeeds: the `closePage` helper swallows its errors. -/
theorem renderRun_result_closeOk (env : EngineBehavior) (b : Bool) (op : RenderOp)
    (url : String) (po : PageOptions) :
    (renderRun { env with closeOk := b } op url po).1
      = (renderRun env op url po).1 := by
  have hnew : newPage { env with closeOk := b } = newPage env := rfl
  have hcfg : configSteps { env with closeOk := b } url (effectiveOptions op po)
      = configSteps env url (effectiveOptions op po) := rfl
  have hbody : bodySteps { env with closeOk := b } op = bodySteps env op := rfl
  simp only [renderRun, withPage, createPage, hnew, hcfg, hbody]
  rcases h1 : newPage env initState with ⟨r1, s1⟩
  cases r1 with
  | error e => simp
  | ok id =>
      rcases h2 : runSteps (configSteps env url (effectiveOptions op po)) s1 with ⟨r2, s2⟩
      cases r2 with
      | error e => simp [h2]
      | ok u => simp [h2]

/-- A render call never fails with the page-close engine error. -/
theorem renderRun_error_not_close (env : EngineBehavior) (op : RenderOp)
    (url : String) (po : PageOptions) (e : RenderError)
    (h : (renderRun env op url po).1 = Except.error e) :
    e ≠ RenderError.engine EngineOp.close := by
  simp only [renderRun, withPage, createPage] at h
  rcases h1 : newPage env initState with ⟨r1, s1⟩
  simp only [h1] at h
  cases r1 with
  | error e1 =>
      have he : e1 = e := by simpa using h
      subst he
      rw [newPage_error env initState e1 s1 h1]
      simp
  | ok id =>
      rcases h2 : runSteps (configSteps env url (effectiveOptions op po)) s1 with ⟨r2, s2⟩
      simp only [h2] at h
      cases r2 with
      | error e2 =>
          have he : e2 = e := by simpa using h
          subst he
          obtain ⟨st, hm, herr⟩ := runSteps_error _ _ _
            (show (runSteps (configSteps env url (effectiveOptions op po)) s1).1
              = Except.error e2 by rw [h2])
          exact configSteps_err_not_close env url _ st e2 hm herr
      | ok u =>
          rcases h3 : runSteps (bodySteps env op) s2 with ⟨r3, s3⟩
          simp only [h3] at h
          cases r3 with
          | error e3 =>
              have he : e3 = e := by simpa using h
              subst he
              obtain ⟨st, hm, herr⟩ := runSteps_error _ _ _
                (show (runSteps (bodySteps env op) s2).1 = Except.error e3 by rw [h3])
              exact bodySteps_err_not_close env op st e3 hm herr
          | ok v => simp at h

/-! ### Concrete engine behaviors used as witnesses -/

/-- Every engine call succeeds; every header string parses. -/
def envAll : EngineBehavior :=
  ⟨true, true, true, true, true, true, true, true, true, true, true, fun _ => true⟩

/-- Navigation (`page.goto`) fails; everything else succeeds. -/
def envGotoFail : EngineBehavior :=
  ⟨true, true, true, true, true, false, true, true, true, true, true, fun _ => true⟩

/-- Header strings do not parse; engine calls succeed. -/
def envBadJson : EngineBehavior :=
  ⟨true, true, true, true, true, true, true, true, true, true, true, fun _ => false⟩

/-- The sequence of engine operations one render call performs. -/
def callTrace (env : EngineBehavior) (op : RenderOp) (url : String)
    (po : PageOptions) : List Event :=
  (renderRun env op url po).2.trace

theorem allOk_envAll : allOk envAll :=
  ⟨rfl, rfl, rfl, rfl, rfl, rfl, rfl, rfl, rfl, rfl, rfl, fun _ => rfl⟩

theorem jsOrPrint_ne_empty (o : Option String) : jsOrPrint o ≠ "" := by
  cases o with
  | none => simp [jsOrPrint]
  | some s => by_cases he : s = "" <;> simp [jsOrPrint, he]

theorem mem_trace_allOk (env : EngineBehavior) (op : RenderOp) (url : String)
    (po : PageOptions) (h : allOk env) {e : Event}
    (hm : e ∈ callTrace env op url po) :
    e = Event.opened 0 ∨ e ∈ cfgEvents url (effectiveOptions op po) ∨
    e ∈ bodyEventsList op ∨ e = Event.closed 0 := by
  rw [callTrace, renderRun_allOk env op url po h] at hm
  simpa using hm

theorem emulateMedia_mem_cfg {url : String} {po : PageOptions} {mt : String}
    (hm : Event.emulateMedia mt ∈ cfgEvents url po) :
    Event.emulateMedia mt ∈ mediaEvents po := by
  rw [cfgEvents] at hm
  simp only [List.mem_append] at hm
  rcases hm with (((hm | hm) | hm) | hm)
  · have := rank_headerEvents hm
    simp [rank] at this
  · exact hm
  · have := rank_authEvents hm
    simp [rank] at this
  · simp at hm

theorem rank_isConfig {e : Event} (h : isConfigEvent e = true) :
    1 ≤ rank e ∧ rank e ≤ 5 := by
  cases e <;> simp_all [isConfigEvent, rank]

theorem rank_isExtraction {e : Event} (h : isExtractionEvent e = true) :
    rank e = 8 := by
  cases e <;> simp_all [isExtractionEvent, rank]

/-! ### The claims -/

/-- C1: for every call to html, pdf, or screenshot (all three operations of
`renderRun`) and every exit path — success, page creation/configuration
error, navigation failure, or extraction failure — the page opened for the
call is closed before the call returns, provided the engine's own
`page.close` call succeeds: pages opened equals pages closed, and no page
remains open. -/
theorem claim1_no_page_leak (env : EngineBehavior) (op : RenderOp)
    (url : String) (po : PageOptions) (hc : env.closeOk = true) :
    (renderRun env op url po).2.pagesOpened
      = (renderRun env op url po).2.pagesClosed ∧
    (renderRun env op url po).2.openPages = [] := by
  rcases createPage_init env url (effectiveOptions op po) hc with
    ⟨s1, hcp, h1, h2, h3⟩ | ⟨e, s1, hcp, h1, h2⟩
  · rcases hbody : runSteps (bodySteps env op) s1 with ⟨r3, s3⟩
    have hp := runSteps_pages (bodySteps env op) s1
    rw [hbody] at hp
    have hp1 : s3.pagesOpened = 1 := hp.1.trans h1
    have hp2 : s3.pagesClosed = 0 := hp.2.1.trans h2
    have hp3 : s3.openPages = [0] := hp.2.2.trans h3
    have hmem : (0 : Nat) ∈ s3.openPages := by rw [hp3]; simp
    have hclose := closePage_some_mem env 0 s3 hmem hc
    constructor
    · simp [renderRun, withPage, hcp, hbody, hclose, hp1, hp2]
    · simp [renderRun, withPage, hcp, hbody, hclose, hp3]
  · constructor
    · simp [renderRun, withPage, hcp, closePage, h1]
    · simp [renderRun, withPage, hcp, closePage, h2]

theorem claim1_no_page_leak_witness :
    envGotoFail.closeOk = true ∧
    ((renderRun envGotoFail RenderOp.htmlOp "https://example.com"
        ⟨none, none, none⟩).2.pagesOpened
      = (renderRun envGotoFail RenderOp.htmlOp "https://example.com"
        ⟨none, none, none⟩).2.pagesClosed ∧
     (renderRun envGotoFail RenderOp.htmlOp "https://example.com"
        ⟨none, none, none⟩).2.openPages = []) :=
  ⟨rfl, claim1_no_page_leak envGotoFail RenderOp.htmlOp "https://example.com"
    ⟨none, none, none⟩ rfl⟩

/-- C2: if a render call fails with error `e`, then the same call in which
the page-close engine call additionally fails still fails with the same
original error `e` — the close failure is swallowed — and `e` is never the
page-close error itself. -/
theorem claim2_close_error_swallowed (env : EngineBehavior) (op : RenderOp)
    (url : String) (po : PageOptions) (e : RenderError)
    (h : (renderRun env op url po).1 = Except.error e) :
    (renderRun { env with closeOk := false } op url po).1 = Except.error e ∧
    e ≠ RenderError.engine EngineOp.close :=
  ⟨(renderRun_result_closeOk env false op url po).trans h,
   renderRun_error_not_close env op url po e h⟩

theorem claim2_close_error_swallowed_witness :
    (renderRun { envGotoFail with closeOk := false } RenderOp.htmlOp
        "https://example.com" ⟨none, none, none⟩).1
      = Except.error (RenderError.engine EngineOp.goto) ∧
    RenderError.engine EngineOp.goto ≠ RenderError.engine EngineOp.close :=
  claim2_close_error_swallowed envGotoFail RenderOp.htmlOp "https://example.com"
    ⟨none, none, none⟩ (RenderError.engine EngineOp.goto) rfl

/-- C4, refuted as stated: in the second variant (renderer.ts lines 232-255)
`createPage` has no catch, so a header-parse failure propagates before
`withPage`'s `page` local is assigned; `closePage(undefined)` closes nothing
and the page opened for the call remains open after the call returns. -/
theorem claim4_counterexample :
    (renderRunV2 envBadJson RenderOp.htmlOp "https://example.com"
        ⟨some "not json", none, none⟩).1 = Except.error RenderError.badOptions ∧
    (renderRunV2 envBadJson RenderOp.htmlOp "https://example.com"
        ⟨some "not json", none, none⟩).2.openPages = [0] ∧
    ¬ (renderRunV2 envBadJson RenderOp.htmlOp "https://example.com"
        ⟨some "not json", none, none⟩).2.openPages = [] :=
  ⟨rfl, rfl, by decide⟩

/-- C4 (amended): a render call whose page options carry a headers string
that does not parse as JSON fails with `BadOptionsError` in both variants;
in the first variant (whose `createPage` catches, closes the page and
rethrows) no page remains open after the call returns (given the engine's
close call succeeds), while in the second variant (whose `createPage` has no
catch) the page opened for the call remains open. -/
theorem claim4_bad_header_json (env : EngineBehavior) (op : RenderOp)
    (url : String) (po : PageOptions) (hstr : String)
    (hn : env.newPageOk = true) (hc : env.closeOk = true)
    (hh : po.headers = some hstr) (hne : hstr ≠ "")
    (hp : env.parseOk hstr = false) :
    ((renderRun env op url po).1 = Except.error RenderError.badOptions ∧
     (renderRun env op url po).2.openPages = [] ∧
     (renderRun env op url po).2.pagesOpened
       = (renderRun env op url po).2.pagesClosed) ∧
    ((renderRunV2 env op url po).1 = Except.error RenderError.badOptions ∧
     (renderRunV2 env op url po).2.openPages = [0]) := by
  have hh2 : (effectiveOptions op po).headers = some hstr := by
    cases op <;> simp [effectiveOptions, hh]
  have hhead : headerSteps env (effectiveOptions op po) = [Step.badOpts] := by
    simp [headerSteps, hh2, hne, hp]
  have hnew : newPage env initState
      = (Except.ok 0, ⟨1, 0, [0], [Event.opened 0]⟩) := by
    simp [newPage, hn, initState]
  have hcfgrun : runSteps (configSteps env url (effectiveOptions op po))
      (⟨1, 0, [0], [Event.opened 0]⟩ : RenderState)
      = (Except.error RenderError.badOptions, ⟨1, 0, [0], [Event.opened 0]⟩) := by
    rw [configSteps, hhead]
    simp [List.append_assoc, List.singleton_append, runSteps, runStep]
  have hclose := closePage_some_mem env 0
      (⟨1, 0, [0], [Event.opened 0]⟩ : RenderState) (by simp) hc
  refine ⟨⟨?_, ?_, ?_⟩, ?_, ?_⟩ <;>
    simp [renderRun, withPage, createPage, renderRunV2, withPageV2, createPageV2,
      hnew, hcfgrun, hclose, closePage_none]

theorem claim4_bad_header_json_witness :
    envBadJson.newPageOk = true ∧ envBadJson.closeOk = true ∧
    (⟨some "not json", none, none⟩ : PageOptions).headers = some "not json" ∧
    "not json" ≠ "" ∧ envBadJson.parseOk "not json" = false ∧
    (((renderRun envBadJson RenderOp.htmlOp "https://example.com"
        ⟨some "not json", none, none⟩).1 = Except.error RenderError.badOptions ∧
      (renderRun envBadJson RenderOp.htmlOp "https://example.com"
        ⟨some "not json", none, none⟩).2.openPages = [] ∧
      (renderRun envBadJson RenderOp.htmlOp "https://example.com"
        ⟨some "not json", none, none⟩).2.pagesOpened
        = (renderRun envBadJson RenderOp.htmlOp "https://example.com"
        ⟨some "not json", none, none⟩).2.pagesClosed) ∧
     ((renderRunV2 envBadJson RenderOp.htmlOp "https://example.com"
        ⟨some "not json", none, none⟩).1 = Except.error RenderError.badOptions ∧
      (renderRunV2 envBadJson RenderOp.htmlOp "https://example.com"
        ⟨some "not json", none, none⟩).2.openPages = [0])) :=
  ⟨rfl, rfl, rfl, by decide, rfl,
   claim4_bad_header_json envBadJson RenderOp.htmlOp "https://example.com"
     ⟨some "not json", none, none⟩ "not json" rfl rfl rfl (by decide) rfl⟩

/-- C3: for a pdf call under a fully successful engine behavior, if the
caller leaves `emulateMediaType` unset the page is configured with media
type `print`; if the caller sets it (to a truthy value) the caller's value
is the one applied; and the applied value is always `emulateMediaType || 'print'`. -/
theorem claim3_pdf_media_default (env : EngineBehavior) (url : String)
    (po : PageOptions) (h : allOk env) :
    (po.emulateMediaType = none →
      Event.emulateMedia "print" ∈ callTrace env RenderOp.pdfOp url po) ∧
    (∀ v, po.emulateMediaType = some v → v ≠ "" →
      Event.emulateMedia v ∈ callTrace env RenderOp.pdfOp url po) ∧
    (∀ mt, Event.emulateMedia mt ∈ callTrace env RenderOp.pdfOp url po →
      mt = jsOrPrint po.emulateMediaType) := by
  have hme : mediaEvents (effectiveOptions RenderOp.pdfOp po)
      = [Event.emulateMedia (jsOrPrint po.emulateMediaType)] := by
    simp [effectiveOptions, mediaEvents, jsOrPrint_ne_empty po.emulateMediaType]
  have hmem : Event.emulateMedia (jsOrPrint po.emulateMediaType)
      ∈ callTrace env RenderOp.pdfOp url po := by
    rw [callTrace, renderRun_allOk env RenderOp.pdfOp url po h]
    simp [cfgEvents, hme]
  refine ⟨?_, ?_, ?_⟩
  · intro hnone
    have hj : jsOrPrint po.emulateMediaType = "print" := by rw [hnone]; rfl
    rw [← hj]
    exact hmem
  · intro v hv hne
    have hj : jsOrPrint po.emulateMediaType = v := by rw [hv]; simp [jsOrPrint, hne]
    rw [← hj]
    exact hmem
  · intro mt hmt
    rcases mem_trace_allOk env RenderOp.pdfOp url po h hmt with h0 | hcfg | hbody | h9
    · simp at h0
    · have := emulateMedia_mem_cfg hcfg
      rw [hme] at this
      simpa using this
    · rw [bodyEventsList] at hbody
      simp at hbody
    · simp at h9

theorem claim3_pdf_media_default_witness :
    allOk envAll ∧
    (Event.emulateMedia "print"
        ∈ callTrace envAll RenderOp.pdfOp "https://example.com" ⟨none, none, none⟩ ∧
     Event.emulateMedia "screen"
        ∈ callTrace envAll RenderOp.pdfOp "https://example.com" ⟨none, some "screen", none⟩) :=
  ⟨allOk_envAll,
   (claim3_pdf_media_default envAll "https://example.com" ⟨none, none, none⟩
      allOk_envAll).1 rfl,
   ((claim3_pdf_media_default envAll "https://example.com" ⟨none, some "screen", none⟩
      allOk_envAll).2.1 "screen" rfl (by decide))⟩

/-- C5: within one render call (any of the three operations), under a fully
successful engine behavior, the configuration steps occur in the fixed order
headers → media emulation → auth → cache-disable → navigation, and every
configuration step occurs before every output-extraction call. -/
theorem claim5_config_order (env : EngineBehavior) (op : RenderOp) (url : String)
    (po : PageOptions) (h : allOk env) :
    (∀ s mt, Event.setHeaders s ∈ callTrace env op url po →
       Event.emulateMedia mt ∈ callTrace env op url po →
       before (callTrace env op url po) (Event.setHeaders s) (Event.emulateMedia mt)) ∧
    (∀ mt, Event.emulateMedia mt ∈ callTrace env op url po →
       Event.authenticate ∈ callTrace env op url po →
       before (callTrace env op url po) (Event.emulateMedia mt) Event.authenticate) ∧
    (∀ s, Event.setHeaders s ∈ callTrace env op url po →
       Event.authenticate ∈ callTrace env op url po →
       before (callTrace env op url po) (Event.setHeaders s) Event.authenticate) ∧
    (∀ s, Event.setHeaders s ∈ callTrace env op url po →
       before (callTrace env op url po) (Event.setHeaders s) Event.cacheDisabled) ∧
    (∀ mt, Event.emulateMedia mt ∈ callTrace env op url po →
       before (callTrace env op url po) (Event.emulateMedia mt) Event.cacheDisabled) ∧
    (Event.authenticate ∈ callTrace env op url po →
       before (callTrace env op url po) Event.authenticate Event.cacheDisabled) ∧
    before (callTrace env op url po) Event.cacheDisabled (Event.goto url) ∧
    (∀ e1 e2, e1 ∈ callTrace env op url po → e2 ∈ callTrace env op url po →
       isConfigEvent e1 = true → isExtractionEvent e2 = true →
       before (callTrace env op url po) e1 e2) := by
  have hsorted : (callTrace env op url po).Pairwise (fun a b => rank a ≤ rank b) := by
    rw [callTrace]
    exact renderRun_allOk_sorted env op url po h
  have hcache : Event.cacheDisabled ∈ callTrace env op url po := by
    rw [callTrace, renderRun_allOk env op url po h]
    simp [cfgEvents]
  have hgoto : Event.goto url ∈ callTrace env op url po := by
    rw [callTrace, renderRun_allOk env op url po h]
    simp [cfgEvents]
  refine ⟨?_, ?_, ?_, ?_, ?_, ?_, ?_, ?_⟩
  · intro s mt h1 h2
    exact before_of_sorted _ hsorted _ _ h1 h2 (by simp [rank])
  · intro mt h1 h2
    exact before_of_sorted _ hsorted _ _ h1 h2 (by simp [rank])
  · intro s h1 h2
    exact before_of_sorted _ hsorted _ _ h1 h2 (by simp [rank])
  · intro s h1
    exact before_of_sorted _ hsorted _ _ h1 hcache (by simp [rank])
  · intro mt h1
    exact before_of_sorted _ hsorted _ _ h1 hcache (by simp [rank])
  · intro h1
    exact before_of_sorted _ hsorted _ _ h1 hcache (by simp [rank])
  · exact before_of_sorted _ hsorted _ _ hcache hgoto (by simp [rank])
  · intro e1 e2 h1 h2 hcfg hext
    have hr1 := rank_isConfig hcfg
    have hr2 := rank_isExtraction hext
    exact before_of_sorted _ hsorted _ _ h1 h2 (by omega)

theorem claim5_config_order_witness :
    allOk envAll ∧
    (before (callTrace envAll RenderOp.htmlOp "https://example.com"
        ⟨some "x-key", some "screen", some ⟨"user", "pass"⟩⟩)
       (Event.setHeaders "x-key") (Event.emulateMedia "screen") ∧
     before (callTrace envAll RenderOp.htmlOp "https://example.com"
        ⟨some "x-key", some "screen", some ⟨"user", "pass"⟩⟩)
       Event.cacheDisabled (Event.goto "https://example.com") ∧
     before (callTrace envAll RenderOp.htmlOp "https://example.com"
        ⟨some "x-key", some "screen", some ⟨"user", "pass"⟩⟩)
       (Event.goto "https://example.com") Event.content) :=
  ⟨allOk_envAll,
   (claim5_config_order envAll RenderOp.htmlOp "https://example.com"
      ⟨some "x-key", some "screen", some ⟨"user", "pass"⟩⟩ allOk_envAll).1
     "x-key" "screen" (by decide) (by decide),
   (claim5_config_order envAll RenderOp.htmlOp "https://example.com"
      ⟨some "x-key", some "screen", some ⟨"user", "pass"⟩⟩ allOk_envAll).2.2.2.2.2.2.1,
   (claim5_config_order envAll RenderOp.htmlOp "https://example.com"
      ⟨some "x-key", some "screen", some ⟨"user", "pass"⟩⟩ allOk_envAll).2.2.2.2.2.2.2
     (Event.goto "https://example.com") Event.content (by decide) (by decide)
     (by decide) (by decide)⟩

/-- C6: for a screenshot call under a fully successful engine behavior, the
Animation Settler runs if and only if `animationTimeout > 0`; with
`animationTimeout <= 0` the capture immediately follows the viewport set;
with `animationTimeout > 0` the capture never starts before the settler has
returned. -/
theorem claim6_animation_settler (env : EngineBehavior) (url : String)
    (po : PageOptions) (vp : PageViewportOptions) (so : ScreenshotOptions)
    (h : allOk env) :
    ((∃ t, Event.settleAnimations t
        ∈ callTrace env (RenderOp.screenshotOp vp so) url po) ↔
      0 < so.animationTimeout) ∧
    (so.animationTimeout ≤ 0 → ∃ A B,
      callTrace env (RenderOp.screenshotOp vp so) url po
        = A ++ (Event.setViewport vp :: Event.screenshotCapture (qualArg so) :: B)) ∧
    (0 < so.animationTimeout →
      before (callTrace env (RenderOp.screenshotOp vp so) url po)
        (Event.settleAnimations so.animationTimeout)
        (Event.screenshotCapture (qualArg so))) := by
  have htr : callTrace env (RenderOp.screenshotOp vp so) url po
      = Event.opened 0 :: (cfgEvents url po ++
          (bodyEventsList (RenderOp.screenshotOp vp so) ++ [Event.closed 0])) := by
    rw [callTrace, renderRun_allOk env (RenderOp.screenshotOp vp so) url po h]
    rfl
  refine ⟨?_, ?_, ?_⟩
  · by_cases ht : 0 < so.animationTimeout
    · refine ⟨fun _ => ht, fun _ => ⟨so.animationTimeout, ?_⟩⟩
      rw [htr]
      simp [bodyEventsList, ht]
    · have hnot : ∀ t, Event.settleAnimations t
          ∉ callTrace env (RenderOp.screenshotOp vp so) url po := by
        intro t hm
        rw [htr] at hm
        rcases List.mem_cons.mp hm with heq | hm
        · simp at heq
        rcases List.mem_append.mp hm with hm | hm
        · have := (rank_cfgEvents hm).2
          simp [rank] at this
        rcases List.mem_append.mp hm with hm | hm
        · rw [bodyEventsList] at hm
          simp [ht] at hm
        · simp at hm
      exact ⟨fun ⟨t, hm⟩ => absurd hm (hnot t), fun hcon => absurd hcon ht⟩
  · intro hle
    have ht : ¬ 0 < so.animationTimeout := by omega
    refine ⟨Event.opened 0 :: cfgEvents url po, [Event.closed 0], ?_⟩
    rw [htr, bodyEventsList]
    simp [ht, List.append_assoc]
  · intro ht
    have hsorted : (callTrace env (RenderOp.screenshotOp vp so) url po).Pairwise
        (fun a b => rank a ≤ rank b) := by
      rw [callTrace]
      exact renderRun_allOk_sorted env (RenderOp.screenshotOp vp so) url po h
    refine before_of_sorted _ hsorted _ _ ?_ ?_ (by simp [rank])
    · rw [htr]
      simp [bodyEventsList, ht]
    · rw [htr]
      simp [bodyEventsList, ht]

theorem claim6_animation_settler_witness :
    allOk envAll ∧
    (((∃ t, Event.settleAnimations t ∈ callTrace envAll
          (RenderOp.screenshotOp ⟨800, 600⟩ ⟨"png", none, 500⟩)
          "https://example.com" ⟨none, none, none⟩) ↔ (0 : Int) < 500) ∧
     before (callTrace envAll
          (RenderOp.screenshotOp ⟨800, 600⟩ ⟨"png", none, 500⟩)
          "https://example.com" ⟨none, none, none⟩)
       (Event.settleAnimations 500)
       (Event.screenshotCapture (qualArg ⟨"png", none, 500⟩)) ∧
     (∃ A B, callTrace envAll
          (RenderOp.screenshotOp ⟨800, 600⟩ ⟨"png", none, 0⟩)
          "https://example.com" ⟨none, none, none⟩
        = A ++ (Event.setViewport ⟨800, 600⟩ ::
            Event.screenshotCapture (qualArg ⟨"png", none, 0⟩) :: B))) :=
  ⟨allOk_envAll,
   (claim6_animation_settler envAll "https://example.com" ⟨none, none, none⟩
      ⟨800, 600⟩ ⟨"png", none, 500⟩ allOk_envAll).1,
   (claim6_animation_settler envAll "https://example.com" ⟨none, none, none⟩
      ⟨800, 600⟩ ⟨"png", none, 500⟩ allOk_envAll).2.2 (by decide),
   (claim6_animation_settler envAll "https://example.com" ⟨none, none, none⟩
      ⟨800, 600⟩ ⟨"png", none, 0⟩ allOk_envAll).2.1 (by decide)⟩

/-- C7: for a screenshot call under a fully successful engine behavior, the
quality argument passed to the engine's capture call is omitted (undefined)
when the requested format is the lossless `png`, and is the caller's quality
value when the format is lossy. -/
theorem claim7_screenshot_quality (env : EngineBehavior) (url : String)
    (po : PageOptions) (vp : PageViewportOptions) (so : ScreenshotOptions)
    (h : allOk env) :
    (so.type = "png" →
      Event.screenshotCapture none
          ∈ callTrace env (RenderOp.screenshotOp vp so) url po ∧
      ∀ q, Event.screenshotCapture q
          ∈ callTrace env (RenderOp.screenshotOp vp so) url po → q = none) ∧
    (so.type ≠ "png" →
      Event.screenshotCapture so.quality
          ∈ callTrace env (RenderOp.screenshotOp vp so) url po ∧
      ∀ q, Event.screenshotCapture q
          ∈ callTrace env (RenderOp.screenshotOp vp so) url po → q = so.quality) := by
  have htr : callTrace env (RenderOp.screenshotOp vp so) url po
      = Event.opened 0 :: (cfgEvents url po ++
          (bodyEventsList (RenderOp.screenshotOp vp so) ++ [Event.closed 0])) := by
    rw [callTrace, renderRun_allOk env (RenderOp.screenshotOp vp so) url po h]
    rfl
  have hq : ∀ q, Event.screenshotCapture q
      ∈ callTrace env (RenderOp.screenshotOp vp so) url po → q = qualArg so := by
    intro q hm
    rw [htr] at hm
    rcases List.mem_cons.mp hm with heq | hm
    · simp at heq
    rcases List.mem_append.mp hm with hm | hm
    · have := (rank_cfgEvents hm).2
      simp [rank] at this
    rcases List.mem_append.mp hm with hm | hm
    · rw [bodyEventsList] at hm
      by_cases ht : 0 < so.animationTimeout <;> simp [ht] at hm <;> exact hm
    · simp at hm
  have hmem : Event.screenshotCapture (qualArg so)
      ∈ callTrace env (RenderOp.screenshotOp vp so) url po := by
    rw [htr]
    by_cases ht : 0 < so.animationTimeout <;> simp [bodyEventsList, ht]
  constructor
  · intro hpng
    have hqa : qualArg so = none := by simp [qualArg, hpng]
    exact ⟨hqa ▸ hmem, fun q hm => (hq q hm).trans hqa⟩
  · intro hpng
    have hqa : qualArg so = so.quality := by simp [qualArg, hpng]
    exact ⟨hqa ▸ hmem, fun q hm => (hq q hm).trans hqa⟩

theorem claim7_screenshot_quality_witness :
    allOk envAll ∧
    ((Event.screenshotCapture none ∈ callTrace envAll
        (RenderOp.screenshotOp ⟨800, 600⟩ ⟨"png", some 80, 0⟩)
        "https://example.com" ⟨none, none, none⟩) ∧
     (Event.screenshotCapture (some 80) ∈ callTrace envAll
        (RenderOp.screenshotOp ⟨800, 600⟩ ⟨"jpeg", some 80, 0⟩)
        "https://example.com" ⟨none, none, none⟩)) :=
  ⟨allOk_envAll,
   ((claim7_screenshot_quality envAll "https://example.com" ⟨none, none, none⟩
      ⟨800, 600⟩ ⟨"png", some 80, 0⟩ allOk_envAll).1 rfl).1,
   ((claim7_screenshot_quality envAll "https://example.com" ⟨none, none, none⟩
      ⟨800, 600⟩ ⟨"jpeg", some 80, 0⟩ allOk_envAll).2 (by decide)).1⟩

/-- C8: for every launch-options bundle, the args the engine is launched
with are exactly the caller's args followed by the five fixed isolation
flags, so they contain all five flags appended after any caller args. -/
theorem claim8_isolation_flags (opts : LaunchOptions) :
    launchArgs opts = opts.args.getD [] ++ isolationFlags ∧
    ∀ f, f ∈ isolationFlags → f ∈ launchArgs opts := by
  refine ⟨rfl, ?_⟩
  intro f hf
  rw [launchArgs]
  simp [createOptions, List.mem_append]
  exact Or.inr hf

theorem claim8_isolation_flags_witness :
    launchArgs ⟨some ["--proxy-server=localhost"]⟩
      = (some ["--proxy-server=localhost"]).getD [] ++ isolationFlags ∧
    "--no-sandbox" ∈ launchArgs ⟨some ["--proxy-server=localhost"]⟩ :=
  ⟨(claim8_isolation_flags ⟨some ["--proxy-server=localhost"]⟩).1,
   (claim8_isolation_flags ⟨some ["--proxy-server=localhost"]⟩).2
     "--no-sandbox" (by decide)⟩

/-- C9: `close` closes the engine handle, and whenever a transient data
directory was recorded at launch, that directory no longer exists in the
filesystem afterwards. -/
theorem claim9_shutdown_removes_dir (r : RendererHandle) (fs : Fs) :
    (rendererClose r fs).1.browserOpen = false ∧
    ∀ d, r.chromeTmpDataDir = some d → d ∉ ((rendererClose r fs).2).dirs := by
  constructor
  · cases hd : r.chromeTmpDataDir <;> simp [rendererClose, hd]
  · intro d hd
    simp [rendererClose, hd, removeSync, List.mem_filter]

theorem claim9_shutdown_removes_dir_witness :
    (rendererClose ⟨true, some "/tmp/chrome-profile"⟩
        ⟨["/tmp/chrome-profile", "/etc"]⟩).1.browserOpen = false ∧
    "/tmp/chrome-profile" ∉
      ((rendererClose ⟨true, some "/tmp/chrome-profile"⟩
        ⟨["/tmp/chrome-profile", "/etc"]⟩).2).dirs :=
  ⟨(claim9_shutdown_removes_dir ⟨true, some "/tmp/chrome-profile"⟩
      ⟨["/tmp/chrome-profile", "/etc"]⟩).1,
   (claim9_shutdown_removes_dir ⟨true, some "/tmp/chrome-profile"⟩
      ⟨["/tmp/chrome-profile", "/etc"]⟩).2 "/tmp/chrome-profile" rfl⟩

/-- C10: `create` mutates the caller-supplied options bundle: afterwards the
caller-visible `args` holds the previous args (an empty array being created
if `args` was absent) extended with the five isolation flags, so the options
bundle is never left unchanged. -/
theorem claim10_create_mutates_options (opts : LaunchOptions) :
    (createOptions opts).args = some (opts.args.getD [] ++ isolationFlags) ∧
    (createOptions opts).args ≠ opts.args := by
  refine ⟨rfl, ?_⟩
  cases hd : opts.args with
  | none => simp [createOptions]
  | some l =>
      simp only [createOptions, hd, Option.getD_some, ne_eq, Option.some.injEq]
      intro hcon
      have hlen := congrArg List.length hcon
      simp [isolationFlags] at hlen

end PuppeteerRenderer
